import Mathlib

/-!
Verification of the Order-Execution-Engine repository.

The definitions below are shallow embeddings of the TypeScript source:
* `selectDex` / `selectedQuoteOf` — the DEX comparator inside the worker
  (src/unnamed/part_002, lines 63–64).
* `validateOrderRequest` — the request validation chain of
  `POST /api/orders/execute` (src/src/routes.ts, lines 16–124), over an
  explicit model of JavaScript numbers (`JsNum`) so that `NaN` and the
  infinities behave as in JS comparisons.
* `applyUpdate` — the `db.orders.update` SQL statement with its
  `COALESCE($i, column)` semantics (src/src/routes.ts, lines 350–364).
* `calculateBackoffDelay` — the backoff-delay string helper
  (src/unnamed/part_002, lines 197–201).
* `runAttempt` — one processing attempt of the BullMQ worker
  (src/unnamed/part_002, lines 33–159), with the broadcasts and database
  writes it performs recorded as explicit traces and a thrown error
  modelled by an optional fail point.
* `broadcastUpdate` / `subscribe` / `unsubscribe` — the WebSocket hub
  (src/src/websocket.ts): the `activeConnections` map, the per-order
  delivery, and the fan-out fallback over `wss.clients`.

Prices and amounts are modelled as rationals; JS string templates are
modelled by string concatenation.
-/

namespace OrderEngine

/-! ### DEX comparator (src/unnamed/part_002, lines 63–64) -/

/-- The two venues of the mock DEX router (src/unnamed/part_004). -/
inductive Dex
  | raydium
  | meteora
deriving DecidableEq

/-- A venue's name as the lowercase string the worker interpolates into
messages (src/unnamed/part_002, line 71). -/
def dexName : Dex → String
  | Dex.raydium => "raydium"
  | Dex.meteora => "meteora"

/-- A quote as returned by `MockDexRouter` (src/unnamed/part_004, lines 1–6):
venue tag, price, fee fraction.  The timestamp is irrelevant to every claim
and omitted. -/
structure Quote where
  dex : Dex
  price : ℚ
  fee : ℚ
deriving DecidableEq

/-- `const selectedDex = meteoraQuote.price > raydiumQuote.price ? 'meteora' : 'raydium'`
(src/unnamed/part_002, line 63). -/
def selectDex (raydiumQuote meteoraQuote : Quote) : Dex :=
  if meteoraQuote.price > raydiumQuote.price then Dex.meteora else Dex.raydium

/-- `const selectedQuote = selectedDex === 'meteora' ? meteoraQuote : raydiumQuote`
(src/unnamed/part_002, line 64). -/
def selectedQuoteOf (raydiumQuote meteoraQuote : Quote) : Quote :=
  if selectDex raydiumQuote meteoraQuote = Dex.meteora then meteoraQuote else raydiumQuote

/-! ### JavaScript numbers, for the validation layer -/

/-- A JavaScript number: a finite value (modelled as a rational), `NaN`,
`Infinity` or `-Infinity`. -/
inductive JsNum
  | finite (q : ℚ)
  | nan
  | posInf
  | negInf
deriving DecidableEq

/-- JavaScript `a <= b`: any comparison with `NaN` is false; otherwise the
usual extended-real order. -/
def jsLe : JsNum → JsNum → Bool
  | JsNum.nan, _ => false
  | _, JsNum.nan => false
  | JsNum.negInf, _ => true
  | JsNum.finite _, JsNum.posInf => true
  | JsNum.posInf, JsNum.posInf => true
  | JsNum.posInf, _ => false
  | JsNum.finite q, JsNum.finite r => decide (q ≤ r)
  | JsNum.finite _, JsNum.negInf => false

/-- JavaScript `a < b`: any comparison with `NaN` is false; otherwise the
usual extended-real strict order. -/
def jsLt : JsNum → JsNum → Bool
  | JsNum.nan, _ => false
  | _, JsNum.nan => false
  | JsNum.negInf, JsNum.negInf => false
  | JsNum.negInf, _ => true
  | _, JsNum.negInf => false
  | JsNum.posInf, _ => false
  | JsNum.finite _, JsNum.posInf => true
  | JsNum.finite q, JsNum.finite r => decide (q < r)

/-- A JSON value in the `amount`/`slippage` position of a request body:
a number, a string, or anything else (`typeof` distinguishes only whether
it is a number here). -/
inductive JsVal
  | num (n : JsNum)
  | str (s : String)
  | other
deriving DecidableEq

/-! ### Request validation (src/src/routes.ts, lines 16–124) -/

/-- The body of `POST /api/orders/execute`.  `none` models an absent (or
`null`/`undefined`) field.  The token fields are restricted to strings,
which is the only case the claims touch. -/
structure OrderRequestBody where
  tokenIn : Option String
  tokenOut : Option String
  amount : Option JsVal
  slippage : Option JsVal
deriving DecidableEq

/-- One character of the token regex character class `[A-Z0-9]`. -/
def isTokenChar (c : Char) : Bool :=
  (decide ('A' ≤ c) && decide (c ≤ 'Z')) || (decide ('0' ≤ c) && decide (c ≤ '9'))

/-- The regex `^[A-Z0-9]{2,10}$` of src/src/routes.ts line 93. -/
def validTokenPattern (s : String) : Bool :=
  decide (2 ≤ s.length) && decide (s.length ≤ 10) && s.toList.all isTokenChar

/-- Outcome of the validation chain: either an early `reply.code(400)` with
the given error code, or acceptance (the order is created with this amount
and enqueued). -/
inductive ValidationResult
  | rejected (errCode : String)
  | accepted (amount : JsNum)
deriving DecidableEq

/-- The token-symbol and same-token checks that follow the numeric checks
(src/src/routes.ts, lines 92–124), ending in order creation + enqueue. -/
def checkTokens (tokenIn tokenOut : String) (amount : JsNum) : ValidationResult :=
  if !validTokenPattern tokenIn then ValidationResult.rejected "INVALID_TOKEN_IN"
  else if !validTokenPattern tokenOut then ValidationResult.rejected "INVALID_TOKEN_OUT"
  else if tokenIn = tokenOut then ValidationResult.rejected "SAME_TOKEN_SWAP"
  else ValidationResult.accepted amount

/-- The slippage checks of src/src/routes.ts, lines 68–90, followed by the
token checks: `typeof slippage !== 'number'` and the `[0,1]` range check,
entered only when validation has not already returned. -/
def validateSlippageThen (tokenIn tokenOut : String) (amount : JsNum) :
    Option JsVal → ValidationResult
  | some (JsVal.str _) => ValidationResult.rejected "INVALID_SLIPPAGE_TYPE"
  | some JsVal.other => ValidationResult.rejected "INVALID_SLIPPAGE_TYPE"
  | some (JsVal.num s) =>
      if jsLt s (JsNum.finite 0) || jsLt (JsNum.finite 1) s then
        ValidationResult.rejected "INVALID_SLIPPAGE_RANGE"
      else checkTokens tokenIn tokenOut amount
  | none => checkTokens tokenIn tokenOut amount

/-- The amount checks of src/src/routes.ts, lines 36–66:
`amount === undefined || amount === null`, `typeof amount !== 'number'`,
and `amount <= 0` under JS comparison, followed by the rest of the chain. -/
def validateAmountThen (tokenIn tokenOut : String) (sl : Option JsVal) :
    Option JsVal → ValidationResult
  | none => ValidationResult.rejected "MISSING_AMOUNT"
  | some (JsVal.str _) => ValidationResult.rejected "INVALID_AMOUNT_TYPE"
  | some JsVal.other => ValidationResult.rejected "INVALID_AMOUNT_TYPE"
  | some (JsVal.num amount) =>
      if jsLe amount (JsNum.finite 0) then ValidationResult.rejected "INVALID_AMOUNT"
      else validateSlippageThen tokenIn tokenOut amount sl

/-- The `!tokenOut` falsiness check (absent or empty string) of
src/src/routes.ts, lines 26–34, followed by the rest of the chain. -/
def validateTokenOutThen (tokenIn : String) (sl am : Option JsVal) :
    Option String → ValidationResult
  | none => ValidationResult.rejected "MISSING_TOKEN_OUT"
  | some tokenOut =>
      if tokenOut = "" then ValidationResult.rejected "MISSING_TOKEN_OUT"
      else validateAmountThen tokenIn tokenOut sl am

/-- The `!tokenIn` falsiness check of src/src/routes.ts, lines 16–24,
followed by the rest of the chain. -/
def validateTokenInThen (sl am : Option JsVal) :
    Option String → Option String → ValidationResult
  | none, _ => ValidationResult.rejected "MISSING_TOKEN_IN"
  | some tokenIn, tokenOutOpt =>
      if tokenIn = "" then ValidationResult.rejected "MISSING_TOKEN_IN"
      else validateTokenOutThen tokenIn sl am tokenOutOpt

/-- The validation chain of `POST /api/orders/execute`
(src/src/routes.ts, lines 16–124), check for check and in source order. -/
def validateOrderRequest (b : OrderRequestBody) : ValidationResult :=
  validateTokenInThen b.slippage b.amount b.tokenIn b.tokenOut

/-! ### Broadcast payloads and database updates -/

/-- The JSON object handed to `broadcastUpdate` by the worker.  Optional
fields model the stage-specific properties a given broadcast carries;
`none` means the property is absent from the object. -/
structure BroadcastEvent where
  status : String
  message : String
  attempt : Option Nat := none
  selectedDex : Option Dex := none
  txHash : Option String := none
  executedPrice : Option ℚ := none
  error : Option String := none
  nextRetryIn : Option String := none
  attempts : Option Nat := none
deriving DecidableEq

/-- The `updates` object passed to `db.orders.update` (src/src/routes.ts,
lines 350–364).  `none` models an absent property, which the SQL
`COALESCE` turns into "keep the stored value". -/
structure DbUpdate where
  status : Option String := none
  selectedDex : Option Dex := none
  txHash : Option String := none
  executedPrice : Option ℚ := none
  error : Option String := none
deriving DecidableEq

/-- A persisted row of the `orders` table (src/src/routes.ts,
lines 310–325), without the timestamp columns. -/
structure OrderRecord where
  id : String
  tokenIn : String
  tokenOut : String
  amount : ℚ
  slippage : ℚ
  status : String
  selectedDex : Option Dex := none
  txHash : Option String := none
  executedPrice : Option ℚ := none
  error : Option String := none
deriving DecidableEq

/-- `db.orders.update` on a single row (src/src/routes.ts, lines 350–364):
`SET column = COALESCE($i, column)` for each of status, selected_dex,
tx_hash, executed_price, error. -/
def applyUpdate (rec : OrderRecord) (u : DbUpdate) : OrderRecord :=
  { rec with
    status := u.status.getD rec.status
    selectedDex := u.selectedDex.orElse (fun _ => rec.selectedDex)
    txHash := u.txHash.orElse (fun _ => rec.txHash)
    executedPrice := u.executedPrice.orElse (fun _ => rec.executedPrice)
    error := u.error.orElse (fun _ => rec.error) }

/-- A sequence of `db.orders.update` calls applied to one row, in order. -/
def applyDbWrites (rec : OrderRecord) (ws : List DbUpdate) : OrderRecord :=
  ws.foldl applyUpdate rec

/-! ### Backoff delay string (src/unnamed/part_002, lines 197–201) -/

/-- `calculateBackoffDelay(attemptNumber)`:
`baseDelay = 2000`, `delayMs = baseDelay * 2 ** (attemptNumber - 1)`,
result built as in the template `(delayMs / 1000).toFixed(1) + "s"`.
`toFixed(1)` is rendered by rounding `delayMs` to tenths of a second
(all reachable `delayMs` are whole thousands, so no rounding ambiguity
arises) and printing integer and tenths digits. -/
def calculateBackoffDelay (attemptNumber : Nat) : String :=
  let baseDelay := 2000
  let delayMs := baseDelay * 2 ^ (attemptNumber - 1)
  let tenths := (delayMs + 50) / 100
  toString (tenths / 10) ++ ("." ++ (toString (tenths % 10) ++ "s"))

/-! ### One worker attempt (src/unnamed/part_002, lines 33–159) -/

/-- The awaited operations inside the `try` block of the worker at which a
thrown error is modelled, in source order.  Broadcasts themselves do not
throw. -/
inductive FailPoint
  | atSleep500
  | atQuotes
  | atBuildSleep
  | atConfirmSleep
  | atDbWrite
deriving DecidableEq

/-- The inputs of one processing attempt: the job payload's order id, the
two quotes the mock router returns, the generated transaction hash,
`attemptNumber = job.attemptsMade + 1`, `maxAttempts = job.opts.attempts || 3`,
and an optional thrown error (fail point and message); `none` means the
attempt succeeds. -/
structure AttemptInput where
  orderId : String
  raydiumQuote : Quote
  meteoraQuote : Quote
  txHash : String
  attemptNumber : Nat
  maxAttempts : Nat
  failure : Option (FailPoint × String) := none

/-- The value returned by the worker's processor on success
(src/unnamed/part_002, lines 111–117). -/
structure JobResult where
  orderId : String
  txHash : String
  executedPrice : ℚ
  selectedDex : Dex
  attempt : Nat
deriving DecidableEq

/-- Everything one attempt did: the broadcasts it emitted (in order), the
database writes that took effect (in order), and whether the processor
returned or re-threw the error. -/
structure AttemptOutcome where
  events : List BroadcastEvent
  dbWrites : List DbUpdate
  result : Except String JobResult

/-- Broadcast of step 1 (src/unnamed/part_002, lines 43–47). -/
def pendingEvent (i : AttemptInput) : BroadcastEvent :=
  { status := "pending", message := "Order received and queued",
    attempt := some i.attemptNumber }

/-- Broadcast of step 2 (src/unnamed/part_002, lines 52–55). -/
def routingEvent : BroadcastEvent :=
  { status := "routing", message := "Comparing DEX prices..." }

/-- Broadcast of step 3 (src/unnamed/part_002, lines 69–73). -/
def buildingEvent (i : AttemptInput) : BroadcastEvent :=
  { status := "building",
    message := "Creating swap transaction on " ++
      dexName (selectDex i.raydiumQuote i.meteoraQuote),
    selectedDex := some (selectDex i.raydiumQuote i.meteoraQuote) }

/-- Broadcast of step 4 (src/unnamed/part_002, lines 80–85). -/
def submittedEvent (i : AttemptInput) : BroadcastEvent :=
  { status := "submitted", message := "Transaction submitted to blockchain",
    txHash := some i.txHash,
    selectedDex := some (selectDex i.raydiumQuote i.meteoraQuote) }

/-- Broadcast of step 6 (src/unnamed/part_002, lines 93–99). -/
def confirmedEvent (i : AttemptInput) : BroadcastEvent :=
  { status := "confirmed", message := "Swap executed successfully",
    txHash := some i.txHash,
    executedPrice := some (selectedQuoteOf i.raydiumQuote i.meteoraQuote).price,
    selectedDex := some (selectDex i.raydiumQuote i.meteoraQuote) }

/-- The single success-path database write (src/unnamed/part_002,
lines 102–107). -/
def confirmedUpdate (i : AttemptInput) : DbUpdate :=
  { status := some "confirmed",
    txHash := some i.txHash,
    executedPrice := some (selectedQuoteOf i.raydiumQuote i.meteoraQuote).price,
    selectedDex := some (selectDex i.raydiumQuote i.meteoraQuote) }

/-- Final-failure broadcast (src/unnamed/part_002, lines 126–131). -/
def failedEvent (i : AttemptInput) (msg : String) : BroadcastEvent :=
  { status := "failed",
    message := "Order failed after " ++ toString i.attemptNumber ++ " attempts: " ++ msg,
    error := some msg,
    attempts := some i.attemptNumber }

/-- Final-failure database write (src/unnamed/part_002, lines 133–136). -/
def failedUpdate (msg : String) : DbUpdate :=
  { status := some "failed", error := some msg }

/-- Retry broadcast (src/unnamed/part_002, lines 141–146). -/
def retryingEvent (i : AttemptInput) (msg : String) : BroadcastEvent :=
  { status := "retrying",
    message := "Attempt " ++ toString i.attemptNumber ++ " failed, retrying...",
    error := some msg,
    nextRetryIn := some (calculateBackoffDelay i.attemptNumber) }

/-- The broadcasts the `try` block emitted before the given fail point was
reached. -/
def tryEventsUpTo (i : AttemptInput) : FailPoint → List BroadcastEvent
  | FailPoint.atSleep500 => [pendingEvent i]
  | FailPoint.atQuotes => [pendingEvent i, routingEvent]
  | FailPoint.atBuildSleep => [pendingEvent i, routingEvent, buildingEvent i]
  | FailPoint.atConfirmSleep =>
      [pendingEvent i, routingEvent, buildingEvent i, submittedEvent i]
  | FailPoint.atDbWrite =>
      [pendingEvent i, routingEvent, buildingEvent i, submittedEvent i, confirmedEvent i]

/-- One run of the worker processor (src/unnamed/part_002, lines 35–152).
On success the `try` block emits its five stage broadcasts and performs the
single confirmed write; on a thrown error the `catch` block consults
`attemptNumber >= (job.opts.attempts || 3)` and either persists `failed`
and broadcasts `failed`, or broadcasts `retrying` without any write, before
re-throwing. -/
def runAttempt (i : AttemptInput) : AttemptOutcome :=
  match i.failure with
  | none =>
      { events := [pendingEvent i, routingEvent, buildingEvent i, submittedEvent i,
          confirmedEvent i]
        dbWrites := [confirmedUpdate i]
        result := Except.ok
          { orderId := i.orderId, txHash := i.txHash,
            executedPrice := (selectedQuoteOf i.raydiumQuote i.meteoraQuote).price,
            selectedDex := selectDex i.raydiumQuote i.meteoraQuote,
            attempt := i.attemptNumber } }
  | some (p, msg) =>
      if i.attemptNumber ≥ i.maxAttempts then
        { events := tryEventsUpTo i p ++ [failedEvent i msg]
          dbWrites := [failedUpdate msg]
          result := Except.error msg }
      else
        { events := tryEventsUpTo i p ++ [retryingEvent i msg]
          dbWrites := []
          result := Except.error msg }

/-! ### WebSocket hub (src/src/websocket.ts) -/

/-- A WebSocket connection: an identity and its `readyState`
(`1` means OPEN). -/
structure Sink where
  sinkId : Nat
  readyState : Nat
deriving DecidableEq

/-- One `socket.send` performed by `broadcastUpdate`: the receiving sink
and the message content (order id plus payload; the timestamp is
irrelevant to the claims and omitted). -/
structure Delivery where
  sink : Sink
  orderId : String
  data : BroadcastEvent
deriving DecidableEq

/-- The hub's state: the module-level `activeConnections` map (a JS `Map`,
modelled as a partial function, hence at most one sink per key) and the
optional standalone `wss` server with its client set. -/
structure HubState where
  activeConnections : String → Option Sink
  wss : Option (List Sink)

/-- The fallback branch of `broadcastUpdate` (src/src/websocket.ts,
lines 43–56): if `wss` exists, send to every client with `readyState === 1`;
otherwise do nothing. -/
def fallbackBroadcast (st : HubState) (orderId : String) (data : BroadcastEvent) :
    List Delivery :=
  match st.wss with
  | some clients =>
      (clients.filter (fun c => c.readyState = 1)).map (fun c => ⟨c, orderId, data⟩)
  | none => []

/-- `broadcastUpdate(orderId, data)` (src/src/websocket.ts, lines 33–57),
returning the list of sends it performs.  It is a total function: publish
never raises. -/
def broadcastUpdate (st : HubState) (orderId : String) (data : BroadcastEvent) :
    List Delivery :=
  match st.activeConnections orderId with
  | some socket =>
      if socket.readyState = 1 then [⟨socket, orderId, data⟩]
      else fallbackBroadcast st orderId data
  | none => fallbackBroadcast st orderId data

/-- Registration of a connection for an order id
(`activeConnections.set(orderId, socket)`, src/src/websocket.ts, line 14).
A JS `Map.set` replaces any previous entry under the same key. -/
def subscribe (st : HubState) (orderId : String) (socket : Sink) : HubState :=
  { st with activeConnections :=
      fun k => if k = orderId then some socket else st.activeConnections k }

/-- Removal on disconnect (`activeConnections.delete(orderId)`,
src/src/websocket.ts, line 26). -/
def unsubscribe (st : HubState) (orderId : String) : HubState :=
  { st with activeConnections :=
      fun k => if k = orderId then none else st.activeConnections k }

/-! ### Concrete example data for witnesses and counterexamples -/

/-- A concrete successful attempt, used by the witness of C2. -/
def successInputExample : AttemptInput :=
  { orderId := "order_1"
    raydiumQuote := ⟨Dex.raydium, 2041/10, 3/1000⟩
    meteoraQuote := ⟨Dex.meteora, 20655/100, 2/1000⟩
    txHash := "tx_1", attemptNumber := 1, maxAttempts := 3
    failure := none }

/-- A concrete failing attempt with attempts remaining (1 of 3). -/
def retryInputExample : AttemptInput :=
  { orderId := "order_1"
    raydiumQuote := ⟨Dex.raydium, 2041/10, 3/1000⟩
    meteoraQuote := ⟨Dex.meteora, 20655/100, 2/1000⟩
    txHash := "tx_1", attemptNumber := 1, maxAttempts := 3
    failure := some (FailPoint.atQuotes, "quote fetch failed") }

/-- A concrete failing attempt with attempts exhausted (3 of 3). -/
def exhaustedInputExample : AttemptInput :=
  { orderId := "order_1"
    raydiumQuote := ⟨Dex.raydium, 2041/10, 3/1000⟩
    meteoraQuote := ⟨Dex.meteora, 20655/100, 2/1000⟩
    txHash := "tx_1", attemptNumber := 3, maxAttempts := 3
    failure := some (FailPoint.atQuotes, "quote fetch failed") }

/-- A persisted row that has already reached the terminal status
`confirmed`. -/
def confirmedRecExample : OrderRecord :=
  { id := "order_1", tokenIn := "SOL", tokenOut := "USDC"
    amount := 10, slippage := 1/20, status := "confirmed"
    selectedDex := some Dex.meteora, txHash := some "tx_1"
    executedPrice := some (20655/100), error := none }

/-- A re-dispatched job for the same order id whose re-run exhausts its
attempts (as happens under at-least-once delivery after a stall). -/
def redeliveredInputExample : AttemptInput :=
  { orderId := "order_1"
    raydiumQuote := ⟨Dex.raydium, 2041/10, 3/1000⟩
    meteoraQuote := ⟨Dex.meteora, 20655/100, 2/1000⟩
    txHash := "tx_2", attemptNumber := 3, maxAttempts := 3
    failure := some (FailPoint.atQuotes, "quote fetch failed") }

/-- A submission whose amount is `Infinity`. -/
def infinityBodyExample : OrderRequestBody :=
  { tokenIn := some "SOL", tokenOut := some "USDC"
    amount := some (JsVal.num JsNum.posInf), slippage := none }

/-- A submission whose amount is `NaN`. -/
def nanBodyExample : OrderRequestBody :=
  { tokenIn := some "SOL", tokenOut := some "USDC"
    amount := some (JsVal.num JsNum.nan), slippage := none }

/-- A hub with a single open sink registered for `order_A` and no
standalone server. -/
def hubExample : HubState :=
  { activeConnections := fun k => if k = "order_A" then some ⟨1, 1⟩ else none
    wss := none }

/-- A hub with no registered sinks and no standalone server. -/
def emptyHubExample : HubState :=
  { activeConnections := fun _ => none, wss := none }

/-! ### Helper lemmas -/

theorem selectDex_pos (rq mq : Quote) (h : rq.price < mq.price) :
    selectDex rq mq = Dex.meteora ∧ selectedQuoteOf rq mq = mq := by
  constructor
  · simp [selectDex, gt_iff_lt, h]
  · simp [selectedQuoteOf, selectDex, gt_iff_lt, h]

theorem selectDex_nonpos (rq mq : Quote) (h : ¬ rq.price < mq.price) :
    selectDex rq mq = Dex.raydium ∧ selectedQuoteOf rq mq = rq := by
  constructor
  · simp [selectDex, gt_iff_lt, h]
  · simp [selectedQuoteOf, selectDex, gt_iff_lt, h]

theorem selectedQuote_dex (rq mq : Quote) (hr : rq.dex = Dex.raydium)
    (hm : mq.dex = Dex.meteora) :
    (selectedQuoteOf rq mq).dex = selectDex rq mq := by
  by_cases h : rq.price < mq.price
  · obtain ⟨h1, h2⟩ := selectDex_pos rq mq h
    rw [h1, h2, hm]
  · obtain ⟨h1, h2⟩ := selectDex_nonpos rq mq h
    rw [h1, h2, hr]

theorem calculateBackoffDelay_eq (n : Nat) :
    calculateBackoffDelay n = toString (2 * 2 ^ (n - 1)) ++ ".0s" := by
  show toString ((2000 * 2 ^ (n - 1) + 50) / 100 / 10) ++
      ("." ++ (toString ((2000 * 2 ^ (n - 1) + 50) / 100 % 10) ++ "s")) = _
  generalize 2 ^ (n - 1) = k
  have h1 : (2000 * k + 50) / 100 / 10 = 2 * k := by omega
  have h2 : (2000 * k + 50) / 100 % 10 = 0 := by omega
  rw [h1, h2]
  rfl

/-! ### Claims about the comparator -/

/-- Claim C1: for every pair of quotes with unequal prices, the comparator
selects the venue of the strictly-higher-priced quote and reports that
quote's price; concretely, quotes 204.10 (raydium) and 206.55 (meteora)
yield meteora at 206.55. -/
theorem comparator_selects_strictly_higher (rq mq : Quote)
    (hr : rq.dex = Dex.raydium) (hm : mq.dex = Dex.meteora)
    (hne : rq.price ≠ mq.price) :
    selectDex rq mq = (if rq.price < mq.price then mq else rq).dex ∧
    selectedQuoteOf rq mq = (if rq.price < mq.price then mq else rq) ∧
    (selectedQuoteOf rq mq).price = max rq.price mq.price ∧
    selectDex ⟨Dex.raydium, 2041/10, 3/1000⟩ ⟨Dex.meteora, 20655/100, 2/1000⟩ =
      Dex.meteora ∧
    (selectedQuoteOf ⟨Dex.raydium, 2041/10, 3/1000⟩
      ⟨Dex.meteora, 20655/100, 2/1000⟩).price = 20655/100 := by
  have hconc : ((2041 : ℚ)/10) < 20655/100 := by norm_num
  obtain ⟨hc1, hc2⟩ := selectDex_pos ⟨Dex.raydium, 2041/10, 3/1000⟩
    ⟨Dex.meteora, 20655/100, 2/1000⟩ hconc
  rcases lt_or_gt_of_ne hne with h | h
  · obtain ⟨h1, h2⟩ := selectDex_pos rq mq h
    rw [if_pos h]
    exact ⟨by rw [h1, hm], h2, by rw [h2]; exact (max_eq_right h.le).symm,
      hc1, by rw [hc2]⟩
  · have h' : ¬ rq.price < mq.price := not_lt.mpr h.le
    obtain ⟨h1, h2⟩ := selectDex_nonpos rq mq h'
    rw [if_neg h']
    exact ⟨by rw [h1, hr], h2, by rw [h2]; exact (max_eq_left h.le).symm,
      hc1, by rw [hc2]⟩

/-- Witness for C1 at the concrete scenario of the spec. -/
theorem comparator_selects_strictly_higher_witness :
    selectDex ⟨Dex.raydium, 2041/10, 3/1000⟩ ⟨Dex.meteora, 20655/100, 2/1000⟩ =
      Dex.meteora ∧
    (selectedQuoteOf ⟨Dex.raydium, 2041/10, 3/1000⟩
      ⟨Dex.meteora, 20655/100, 2/1000⟩).price = 20655/100 :=
  ⟨(comparator_selects_strictly_higher ⟨Dex.raydium, 2041/10, 3/1000⟩
      ⟨Dex.meteora, 20655/100, 2/1000⟩ rfl rfl (by norm_num)).2.2.2.1,
   (comparator_selects_strictly_higher ⟨Dex.raydium, 2041/10, 3/1000⟩
      ⟨Dex.meteora, 20655/100, 2/1000⟩ rfl rfl (by norm_num)).2.2.2.2⟩

/-- Claim C9: on a price tie the comparator deterministically returns
raydium, and the reported quote is the raydium quote at the shared price. -/
theorem comparator_tie_selects_raydium (rq mq : Quote)
    (heq : rq.price = mq.price) :
    selectDex rq mq = Dex.raydium ∧ selectedQuoteOf rq mq = rq ∧
    (selectedQuoteOf rq mq).price = rq.price := by
  have h : ¬ rq.price < mq.price := by rw [heq]; exact lt_irrefl _
  obtain ⟨h1, h2⟩ := selectDex_nonpos rq mq h
  exact ⟨h1, h2, by rw [h2]⟩

/-- Witness for C9 at a concrete tie. -/
theorem comparator_tie_selects_raydium_witness :
    selectDex ⟨Dex.raydium, 200, 3/1000⟩ ⟨Dex.meteora, 200, 2/1000⟩ =
      Dex.raydium ∧
    selectedQuoteOf ⟨Dex.raydium, 200, 3/1000⟩ ⟨Dex.meteora, 200, 2/1000⟩ =
      ⟨Dex.raydium, 200, 3/1000⟩ ∧
    (selectedQuoteOf ⟨Dex.raydium, 200, 3/1000⟩
      ⟨Dex.meteora, 200, 2/1000⟩).price = 200 :=
  comparator_tie_selects_raydium ⟨Dex.raydium, 200, 3/1000⟩
    ⟨Dex.meteora, 200, 2/1000⟩ rfl

/-! ### Claims about the worker attempt -/

/-- Claim C2: a successfully settling attempt persists exactly one update,
recording status `confirmed`, the selected venue, the executed price equal
to the price of the quote from the selected venue, and the execution
reference; and it broadcasts a completion event carrying those same
fields. -/
theorem confirmed_attempt_persists_and_broadcasts (i : AttemptInput)
    (hf : i.failure = none) (hr : i.raydiumQuote.dex = Dex.raydium)
    (hm : i.meteoraQuote.dex = Dex.meteora) :
    ∃ u : DbUpdate, (runAttempt i).dbWrites = [u] ∧
      u.status = some "confirmed" ∧ u.txHash = some i.txHash ∧
      (∃ q : Quote, (q = i.raydiumQuote ∨ q = i.meteoraQuote) ∧
        u.selectedDex = some q.dex ∧ u.executedPrice = some q.price) ∧
      ∃ e ∈ (runAttempt i).events, e.status = "confirmed" ∧
        e.txHash = u.txHash ∧ e.selectedDex = u.selectedDex ∧
        e.executedPrice = u.executedPrice := by
  refine ⟨confirmedUpdate i, ?_, rfl, rfl, ?_, confirmedEvent i, ?_, rfl, rfl, rfl, rfl⟩
  · simp [runAttempt, hf]
  · refine ⟨selectedQuoteOf i.raydiumQuote i.meteoraQuote, ?_, ?_, rfl⟩
    · unfold selectedQuoteOf
      split
      · right; rfl
      · left; rfl
    · show some (selectDex i.raydiumQuote i.meteoraQuote) = _
      rw [selectedQuote_dex i.raydiumQuote i.meteoraQuote hr hm]
  · simp [runAttempt, hf]

/-- Witness for C2: a concrete successful attempt. -/
theorem confirmed_attempt_witness :
    ∃ u : DbUpdate, (runAttempt successInputExample).dbWrites = [u] ∧
      u.status = some "confirmed" ∧ u.txHash = some "tx_1" ∧
      (∃ q : Quote,
        (q = successInputExample.raydiumQuote ∨
         q = successInputExample.meteoraQuote) ∧
        u.selectedDex = some q.dex ∧ u.executedPrice = some q.price) ∧
      ∃ e ∈ (runAttempt successInputExample).events, e.status = "confirmed" ∧
        e.txHash = u.txHash ∧ e.selectedDex = u.selectedDex ∧
        e.executedPrice = u.executedPrice := by
  have h := confirmed_attempt_persists_and_broadcasts successInputExample rfl rfl rfl
  obtain ⟨u, h1, h2, h3, h4, h5⟩ := h
  exact ⟨u, h1, h2, h3, h4, h5⟩

/-- Claim C3: a failing attempt with attempts remaining broadcasts a
`retrying` event carrying the computed delay string and performs no
database write, so the persisted record is unchanged by the attempt. -/
theorem retrying_attempt_persists_no_change (i : AttemptInput)
    (p : FailPoint) (msg : String) (hf : i.failure = some (p, msg))
    (hlt : i.attemptNumber < i.maxAttempts) :
    (∃ e ∈ (runAttempt i).events, e.status = "retrying" ∧
      e.nextRetryIn = some (calculateBackoffDelay i.attemptNumber)) ∧
    (runAttempt i).dbWrites = [] ∧
    ∀ rec : OrderRecord, applyDbWrites rec (runAttempt i).dbWrites = rec := by
  have hge : ¬ i.attemptNumber ≥ i.maxAttempts := not_le.mpr hlt
  have hw : (runAttempt i).dbWrites = [] := by
    simp [runAttempt, hf, hge]
  refine ⟨⟨retryingEvent i msg, ?_, rfl, rfl⟩, hw, fun rec => by
    rw [hw]; rfl⟩
  simp [runAttempt, hf, hge]

/-- Witness for C3: a concrete first-attempt failure out of three. -/
theorem retrying_attempt_witness :
    (∃ e ∈ (runAttempt retryInputExample).events, e.status = "retrying" ∧
      e.nextRetryIn = some (calculateBackoffDelay 1)) ∧
    (runAttempt retryInputExample).dbWrites = [] ∧
    ∀ rec : OrderRecord,
      applyDbWrites rec (runAttempt retryInputExample).dbWrites = rec :=
  retrying_attempt_persists_no_change retryInputExample FailPoint.atQuotes
    "quote fetch failed" rfl (by decide)

/-- Claim C4: a failing attempt whose attempt number has reached the
maximum persists status `failed` together with the error message and
broadcasts a `failed` event carrying that error message. -/
theorem exhausted_attempt_persists_failed (i : AttemptInput)
    (p : FailPoint) (msg : String) (hf : i.failure = some (p, msg))
    (hge : i.maxAttempts ≤ i.attemptNumber) :
    (runAttempt i).dbWrites = [{ status := some "failed", error := some msg }] ∧
    ∃ e ∈ (runAttempt i).events, e.status = "failed" ∧ e.error = some msg := by
  constructor
  · simp [runAttempt, hf, hge, failedUpdate]
  · refine ⟨failedEvent i msg, ?_, rfl, rfl⟩
    simp [runAttempt, hf, hge]

/-- Witness for C4: a concrete third failure out of three. -/
theorem exhausted_attempt_witness :
    (runAttempt exhaustedInputExample).dbWrites =
      [{ status := some "failed", error := some "quote fetch failed" }] ∧
    ∃ e ∈ (runAttempt exhaustedInputExample).events,
      e.status = "failed" ∧ e.error = some "quote fetch failed" :=
  exhausted_attempt_persists_failed exhaustedInputExample FailPoint.atQuotes
    "quote fetch failed" rfl (by decide)

/-- Claim C5: the delay string carried by the `retrying` broadcast after
the n-th failed attempt is (2000 × 2^(n−1)) / 1000 = 2 × 2^(n−1) seconds
rendered with one decimal place and an `s` suffix; in particular `2.0s`
for attempt 1 and `4.0s` for attempt 2. -/
theorem retry_delay_string (i : AttemptInput) (p : FailPoint) (msg : String)
    (hf : i.failure = some (p, msg)) (hlt : i.attemptNumber < i.maxAttempts) :
    (∃ e ∈ (runAttempt i).events, e.status = "retrying" ∧
      e.nextRetryIn =
        some (toString (2 * 2 ^ (i.attemptNumber - 1)) ++ ".0s")) ∧
    calculateBackoffDelay 1 = "2.0s" ∧ calculateBackoffDelay 2 = "4.0s" := by
  have hge : ¬ i.attemptNumber ≥ i.maxAttempts := not_le.mpr hlt
  refine ⟨⟨retryingEvent i msg, ?_, rfl, ?_⟩, by rfl, by rfl⟩
  · simp [runAttempt, hf, hge]
  · show some (calculateBackoffDelay i.attemptNumber) = _
    rw [calculateBackoffDelay_eq]

/-- Witness for C5: the first failed attempt yields the string `2.0s`. -/
theorem retry_delay_string_witness :
    (∃ e ∈ (runAttempt retryInputExample).events, e.status = "retrying" ∧
      e.nextRetryIn = some (toString (2 * 2 ^ (1 - 1)) ++ ".0s")) ∧
    calculateBackoffDelay 1 = "2.0s" ∧ calculateBackoffDelay 2 = "4.0s" :=
  retry_delay_string retryInputExample FailPoint.atQuotes
    "quote fetch failed" rfl (by decide)

/-! ### Claims about the order store -/

/-- Counterexample to claim C6: the store's update has no terminal-state
guard, so re-processing an order whose persisted status is already
`confirmed` overwrites it — here the re-delivered job's final failure
flips the record to `failed` and writes an error message onto it. -/
theorem terminal_status_overwritten_counterexample :
    confirmedRecExample.status = "confirmed" ∧
    (applyDbWrites confirmedRecExample
      (runAttempt redeliveredInputExample).dbWrites).status = "failed" ∧
    (applyDbWrites confirmedRecExample
      (runAttempt redeliveredInputExample).dbWrites).error =
      some "quote fetch failed" := by
  refine ⟨rfl, rfl, rfl⟩

/-- Claim C6 (amended): the store's update is `COALESCE` last-write-wins —
re-applying the same update is idempotent and an update that supplies no
value for a field leaves that field unchanged — but a terminal status is
not protected: a later update that supplies a status overwrites it. -/
theorem update_lastWriteWins_idempotent (rec : OrderRecord) (u : DbUpdate) :
    applyUpdate (applyUpdate rec u) u = applyUpdate rec u ∧
    (u.status = none → (applyUpdate rec u).status = rec.status) ∧
    (u = {} → applyUpdate rec u = rec) := by
  obtain ⟨us, ud, ut, ue, uer⟩ := u
  refine ⟨?_, ?_, ?_⟩
  · cases us <;> cases ud <;> cases ut <;> cases ue <;> cases uer <;>
      simp [applyUpdate, Option.orElse]
  · intro h
    simp only [DbUpdate.mk.injEq] at h ⊢
    cases h
    simp [applyUpdate]
  · intro h
    cases h
    simp [applyUpdate, Option.orElse]

/-- Witness for the amended C6: idempotence and no-op update on a concrete
confirmed record. -/
theorem update_lastWriteWins_witness :
    applyUpdate (applyUpdate confirmedRecExample (failedUpdate "boom"))
        (failedUpdate "boom") =
      applyUpdate confirmedRecExample (failedUpdate "boom") ∧
    applyUpdate confirmedRecExample {} = confirmedRecExample :=
  ⟨(update_lastWriteWins_idempotent confirmedRecExample (failedUpdate "boom")).1,
   (update_lastWriteWins_idempotent confirmedRecExample {}).2.2 rfl⟩

/-! ### Claims about request validation -/

/-- Counterexample to claim C7: an amount of `Infinity` (and likewise
`NaN`) passes every validation check — `amount <= 0` is false for both
under JS comparison — so the submission is accepted and enqueued rather
than rejected. -/
theorem validation_accepts_infinity_counterexample :
    validateOrderRequest infinityBodyExample =
      ValidationResult.accepted JsNum.posInf ∧
    validateOrderRequest nanBodyExample =
      ValidationResult.accepted JsNum.nan := by
  refine ⟨rfl, rfl⟩

theorem checkTokens_accepted (tokenIn tokenOut : String) (a a' : JsNum)
    (h : checkTokens tokenIn tokenOut a = ValidationResult.accepted a') :
    a' = a := by
  unfold checkTokens at h
  split_ifs at h
  all_goals injection h with h'
  all_goals exact h'.symm

theorem jsLe_zero_false (a : JsNum) (h : jsLe a (JsNum.finite 0) = false) :
    a = JsNum.nan ∨ a = JsNum.posInf ∨ ∃ q : ℚ, a = JsNum.finite q ∧ 0 < q := by
  cases a with
  | nan => exact Or.inl rfl
  | posInf => exact Or.inr (Or.inl rfl)
  | negInf => simp [jsLe] at h
  | finite q =>
      refine Or.inr (Or.inr ⟨q, rfl, ?_⟩)
      have : ¬ q ≤ 0 := by simpa [jsLe] using h
      exact not_le.mp this

/-- Claim C7 (amended): every accepted submission's amount is `NaN`,
`Infinity`, or a finite positive number — equivalently, the validation
rejects a missing, non-numeric, non-positive-finite or `-Infinity` amount,
but `NaN` and `Infinity` slip through and are enqueued unchecked. -/
theorem validation_accepts_only_positive_or_nonfinite
    (b : OrderRequestBody) (a : JsNum)
    (h : validateOrderRequest b = ValidationResult.accepted a) :
    b.amount = some (JsVal.num a) ∧
    (a = JsNum.nan ∨ a = JsNum.posInf ∨
      ∃ q : ℚ, a = JsNum.finite q ∧ 0 < q) := by
  obtain ⟨tIn, tOut, am, sl⟩ := b
  simp only [validateOrderRequest] at h
  rcases tIn with _ | tIn
  · simp [validateTokenInThen] at h
  simp only [validateTokenInThen] at h
  by_cases he1 : tIn = ""
  · simp [he1] at h
  rw [if_neg he1] at h
  rcases tOut with _ | tOut
  · simp [validateTokenOutThen] at h
  simp only [validateTokenOutThen] at h
  by_cases he2 : tOut = ""
  · simp [he2] at h
  rw [if_neg he2] at h
  rcases am with _ | av
  · simp [validateAmountThen] at h
  rcases av with an | as | _
  · simp only [validateAmountThen] at h
    show some (JsVal.num an) = some (JsVal.num a) ∧ _
    cases hle : jsLe an (JsNum.finite 0) <;> rw [hle] at h
    · simp only [Bool.false_eq_true, if_false] at h
      have hfin : checkTokens tIn tOut an = ValidationResult.accepted a →
          some (JsVal.num an) = some (JsVal.num a) ∧
          (a = JsNum.nan ∨ a = JsNum.posInf ∨
            ∃ q : ℚ, a = JsNum.finite q ∧ 0 < q) := by
        intro hc
        have ha := checkTokens_accepted tIn tOut an a hc
        rw [ha]
        exact ⟨rfl, jsLe_zero_false an hle⟩
      rcases sl with _ | sv
      · simp only [validateSlippageThen] at h
        exact hfin h
      rcases sv with sn | ss | _
      · simp only [validateSlippageThen] at h
        cases hsl : (jsLt sn (JsNum.finite 0) || jsLt (JsNum.finite 1) sn) <;>
          rw [hsl] at h
        · simp only [Bool.false_eq_true, if_false] at h
          exact hfin h
        · simp at h
      · simp [validateSlippageThen] at h
      · simp [validateSlippageThen] at h
    · simp at h
  · simp [validateAmountThen] at h
  · simp [validateAmountThen] at h

/-- Witness for the amended C7: a finite positive amount is accepted and
characterised. -/
theorem validation_accepts_witness :
    (OrderRequestBody.mk (some "SOL") (some "USDC")
        (some (JsVal.num (JsNum.finite 10))) none).amount =
      some (JsVal.num (JsNum.finite 10)) ∧
    (JsNum.finite 10 = JsNum.nan ∨ JsNum.finite 10 = JsNum.posInf ∨
      ∃ q : ℚ, JsNum.finite 10 = JsNum.finite q ∧ 0 < q) :=
  validation_accepts_only_positive_or_nonfinite
    (OrderRequestBody.mk (some "SOL") (some "USDC")
      (some (JsVal.num (JsNum.finite 10))) none)
    (JsNum.finite 10) (by rfl)

/-! ### Claims about the broadcast hub -/

/-- Claim C8: if a sink is registered for the order id and is open, the
event is delivered to exactly that sink and to no other registered sink;
if no open sink is registered for the order id, the event is silently
dropped when no standalone server exists, or fanned out to all its open
clients when one does.  `broadcastUpdate` is a total function, so publish
returns without error in every case. -/
theorem publish_delivery (st : HubState) (oid : String) (ev : BroadcastEvent) :
    (∀ s, st.activeConnections oid = some s → s.readyState = 1 →
      broadcastUpdate st oid ev = [⟨s, oid, ev⟩] ∧
      ∀ s', (∃ oid', st.activeConnections oid' = some s') → s' ≠ s →
        ¬ ∃ d ∈ broadcastUpdate st oid ev, d.sink = s') ∧
    ((∀ s, st.activeConnections oid = some s → s.readyState ≠ 1) →
      (st.wss = none → broadcastUpdate st oid ev = []) ∧
      ∀ clients, st.wss = some clients →
        (broadcastUpdate st oid ev).map Delivery.sink =
          clients.filter (fun c => c.readyState = 1)) := by
  constructor
  · intro s hs hopen
    have hb : broadcastUpdate st oid ev = [⟨s, oid, ev⟩] := by
      simp [broadcastUpdate, hs, hopen]
    refine ⟨hb, ?_⟩
    rintro s' ⟨oid', hs'⟩ hne ⟨d, hd, hds⟩
    rw [hb] at hd
    simp only [List.mem_singleton] at hd
    subst hd
    exact hne hds.symm
  · intro hno
    have hb : broadcastUpdate st oid ev = fallbackBroadcast st oid ev := by
      cases hc : st.activeConnections oid with
      | none => simp [broadcastUpdate, hc]
      | some socket =>
          have hns := hno socket hc
          simp [broadcastUpdate, hc, hns]
    constructor
    · intro hw
      rw [hb]
      simp [fallbackBroadcast, hw]
    · intro clients hw
      rw [hb]
      simp only [fallbackBroadcast, hw, List.map_map]
      have hcomp : (Delivery.sink ∘ fun c =>
          ({ sink := c, orderId := oid, data := ev } : Delivery)) = id := rfl
      rw [hcomp, List.map_id]

/-- Witness for C8: publishing for `order_A` on the example hub delivers
to its registered open sink alone. -/
theorem publish_delivery_witness :
    broadcastUpdate hubExample "order_A" routingEvent =
      [⟨⟨1, 1⟩, "order_A", routingEvent⟩] :=
  ((publish_delivery hubExample "order_A" routingEvent).1 ⟨1, 1⟩ rfl rfl).1

/-- Claim C10: the registry keeps at most one sink per order id (it is a
map), a second subscription for the same order id replaces the first
without touching other keys, and a subsequent publish for that order id is
delivered only to the most recently registered sink. -/
theorem subscribe_replaces_and_routes (st : HubState) (oid : String)
    (s1 s2 : Sink) (ev : BroadcastEvent) (hopen : s2.readyState = 1) :
    (subscribe (subscribe st oid s1) oid s2).activeConnections oid = some s2 ∧
    (∀ k, k ≠ oid →
      (subscribe (subscribe st oid s1) oid s2).activeConnections k =
        st.activeConnections k) ∧
    broadcastUpdate (subscribe (subscribe st oid s1) oid s2) oid ev =
      [⟨s2, oid, ev⟩] := by
  refine ⟨by simp [subscribe], fun k hk => by simp [subscribe, hk], ?_⟩
  simp [broadcastUpdate, subscribe, hopen]

/-- Witness for C10: two subscriptions for `order_A`, the second open;
lookup and publish both see only the second sink. -/
theorem subscribe_replaces_witness :
    (subscribe (subscribe emptyHubExample "order_A" ⟨1, 0⟩) "order_A"
      ⟨2, 1⟩).activeConnections "order_A" = some ⟨2, 1⟩ ∧
    broadcastUpdate (subscribe (subscribe emptyHubExample "order_A" ⟨1, 0⟩)
      "order_A" ⟨2, 1⟩) "order_A" routingEvent =
      [⟨⟨2, 1⟩, "order_A", routingEvent⟩] :=
  ⟨(subscribe_replaces_and_routes emptyHubExample "order_A" ⟨1, 0⟩ ⟨2, 1⟩
      routingEvent rfl).1,
   (subscribe_replaces_and_routes emptyHubExample "order_A" ⟨1, 0⟩ ⟨2, 1⟩
      routingEvent rfl).2.2⟩

end OrderEngine
